import Mathlib

/-!
Verification development for the River configuration-language runtime of the
grafana agent repository: the default-value protocol and the encode (builder)
and decode (VM) algorithms for nested optional blocks, as exercised by
`pkg/river/token/builder/blocks_nesting_test.go`, together with the promtail
converter's `Convert` entry point from
`converter/internal/promtailconvert/promtailconvert.go`.

The builder and VM sources are not part of the source snapshot (only their
tests and callers are), so their behaviour is modelled from the spec
(§4.4-§4.6), pinned to the concrete expectations of the test matrix in
`blocks_nesting_test.go`, which the model reproduces exactly (see the block of
`example`s pinning every test case).
-/

namespace River

/-- Statements of a block body, reduced to what the block-nesting test matrix
exercises: an attribute statement assigning an integer literal, or a block
statement with a nested statement list.  (Expressions beyond integer literals,
labels, scope lookups and coercion play no role in these claims.) -/
inductive Stmt where
  | attr : String → Int → Stmt
  | block : String → List Stmt → Stmt
deriving Repr

/-- Structural decode errors from spec §4.6 / §7 that the modelled decoder can
produce. -/
inductive DecodeError where
  | unknownField : String → DecodeError
  | duplicateField : String → DecodeError
deriving DecidableEq, Repr

/-- The inner block type of the test matrix
(`AttrWithDefault` in blocks_nesting_test.go): a single optional
attribute `number`. -/
structure AttrWithDefault where
  number : Int
deriving DecidableEq, Repr

/-- `AttrWithDefault.SetToDefault` sets `Number: defaultNumber` with
`defaultNumber = 123` (blocks_nesting_test.go lines 14-17, 492-494). -/
def AttrWithDefault.setToDefault : AttrWithDefault := ⟨123⟩

/-- Outer block shape with a struct-typed inner field:
`Inner AttrWithDefault` tagged `river:"inner,block,optional"`.  The four named
outer test types (`OutZeroDefInStrBlkOptWithDef`, `OutMatchDefInStrBlkOptMatchDef`,
`OutNoDefInStrBlkOptWithDef`, `OutDiffDefInStrBlkOptDiffDef`) share this shape
and differ only in their default value. -/
structure OutStr where
  inner : AttrWithDefault
deriving DecidableEq, Repr

/-- Outer block shape with a pointer-typed inner field:
`Inner *AttrWithDefault` tagged `river:"inner,block,optional"`; `none` models a
nil pointer. -/
structure OutPtr where
  inner : Option AttrWithDefault
deriving DecidableEq, Repr

/-- `OutZeroDefInStrBlkOptWithDef.SetToDefault` sets `Inner: AttrWithDefault{}`
(zero value). -/
def OutZeroDefInStrBlkOptWithDef_default : OutStr := ⟨⟨0⟩⟩

/-- `OutMatchDefInStrBlkOptMatchDef.SetToDefault` sets
`Inner: AttrWithDefault{Number: defaultNumber}`. -/
def OutMatchDefInStrBlkOptMatchDef_default : OutStr := ⟨⟨123⟩⟩

/-- `OutNoDefInStrBlkOptWithDef` implements no `SetToDefault`; per spec §4.4
its starting value is the zero-initialized value. -/
def OutNoDefInStrBlkOptWithDef_initial : OutStr := ⟨⟨0⟩⟩

/-- `OutDiffDefInStrBlkOptDiffDef.SetToDefault` sets
`Inner: AttrWithDefault{Number: otherDefaultNumber}` with
`otherDefaultNumber = 321`. -/
def OutDiffDefInStrBlkOptDiffDef_default : OutStr := ⟨⟨321⟩⟩

/-- `OutZeroDefInPtrBlkOptWithDef.SetToDefault` sets
`Inner: &AttrWithDefault{}`. -/
def OutZeroDefInPtrBlkOptWithDef_default : OutPtr := ⟨some ⟨0⟩⟩

/-- `OutMatchDefInPtrBlkOptMatchDef.SetToDefault` sets
`Inner: &AttrWithDefault{Number: defaultNumber}`. -/
def OutMatchDefInPtrBlkOptMatchDef_default : OutPtr := ⟨some ⟨123⟩⟩

/-- `OutNoDefInPtrBlkOptWithDef` implements no `SetToDefault`; its starting
value is the zero value, a nil pointer. -/
def OutNoDefInPtrBlkOptWithDef_initial : OutPtr := ⟨none⟩

/-- `OutDiffDefInPtrBlkOptDiffDef.SetToDefault` sets
`Inner: &AttrWithDefault{Number: otherDefaultNumber}`. -/
def OutDiffDefInPtrBlkOptDiffDef_default : OutPtr := ⟨some ⟨321⟩⟩

/-- Modelled from the spec: the builder's rendering of an `AttrWithDefault`
block body (spec §4.5 rule 2 — the builder source is absent from the snapshot).
The `number` attribute is emitted only when it differs from the field's
computed default, which inside a freshly defaulted inner block is
`AttrWithDefault.setToDefault`. -/
def encodeInner (i : AttrWithDefault) : List Stmt :=
  if i = AttrWithDefault.setToDefault then []
  else [Stmt.attr "number" i.number]

/-- Modelled from the spec: the builder's encoding of a struct-shaped outer
block with default value `dflt` (spec §4.5 rule 3, ordered after the
default-suppression check of §8, as pinned by the test matrix): the `inner`
field is omitted entirely when it equals the outer-composed default, and
otherwise rendered as a block whose body applies inner default suppression
(an empty body when the value is the inner type's own default). -/
def encodeStr (dflt v : OutStr) : List Stmt :=
  if v.inner = dflt.inner then []
  else [Stmt.block "inner" (encodeInner v.inner)]

/-- Modelled from the spec: the builder's encoding of a pointer-shaped outer
block with default value `dflt` (spec §4.5 rule 3): omit when the held value
equals the outer-composed default, omit when absent (nil), otherwise render
the block with inner default suppression. -/
def encodePtr (dflt v : OutPtr) : List Stmt :=
  if v.inner = dflt.inner then []
  else
    match v.inner with
    | none => []
    | some i => [Stmt.block "inner" (encodeInner i)]

/-- Modelled from the spec: the VM's decoding of an `AttrWithDefault` block
body (spec §4.6 — the VM source is absent from the snapshot).  The target
starts from the freshly applied inner default; each `number = n` statement
overwrites the field, a second assignment of `number` is a
`DuplicateFieldError`, and any other statement is an `UnknownFieldError`. -/
def decodeInnerGo (cur : AttrWithDefault) (numberSeen : Bool) :
    List Stmt → Except DecodeError AttrWithDefault
  | [] => .ok cur
  | .attr n val :: rest =>
      if n = "number" then
        if numberSeen then .error (.duplicateField "number")
        else decodeInnerGo ⟨val⟩ true rest
      else .error (.unknownField n)
  | .block n _ :: _ => .error (.unknownField n)

/-- Decode a statement list into an `AttrWithDefault`, starting from the
freshly applied default (spec §4.6 step 1). -/
def decodeInner (ss : List Stmt) : Except DecodeError AttrWithDefault :=
  decodeInnerGo AttrWithDefault.setToDefault false ss

/-- Modelled from the spec: the VM's decoding loop for a struct-shaped outer
block (spec §4.6 step 2).  An `inner { ... }` statement decodes its body into a
freshly defaulted `AttrWithDefault` and assigns it; a second `inner` block for
this non-repeated field is a `DuplicateFieldError`; anything else is an
`UnknownFieldError`. -/
def decodeStrGo (cur : OutStr) (innerSeen : Bool) :
    List Stmt → Except DecodeError OutStr
  | [] => .ok cur
  | .block n body :: rest =>
      if n = "inner" then
        if innerSeen then .error (.duplicateField "inner")
        else
          match decodeInner body with
          | .error e => .error e
          | .ok i => decodeStrGo ⟨i⟩ true rest
      else .error (.unknownField n)
  | .attr n _ :: _ => .error (.unknownField n)

/-- Decode a statement list into a struct-shaped outer block whose
applyDefault result (spec §4.6 step 1) is `dflt`. -/
def decodeStr (dflt : OutStr) (ss : List Stmt) : Except DecodeError OutStr :=
  decodeStrGo dflt false ss

/-- Modelled from the spec: the VM's decoding loop for a pointer-shaped outer
block; as `decodeStrGo` but assignment stores a non-nil pointer. -/
def decodePtrGo (cur : OutPtr) (innerSeen : Bool) :
    List Stmt → Except DecodeError OutPtr
  | [] => .ok cur
  | .block n body :: rest =>
      if n = "inner" then
        if innerSeen then .error (.duplicateField "inner")
        else
          match decodeInner body with
          | .error e => .error e
          | .ok i => decodePtrGo ⟨some i⟩ true rest
      else .error (.unknownField n)
  | .attr n _ :: _ => .error (.unknownField n)

/-- Decode a statement list into a pointer-shaped outer block whose
applyDefault result (spec §4.6 step 1) is `dflt`. -/
def decodePtr (dflt : OutPtr) (ss : List Stmt) : Except DecodeError OutPtr :=
  decodePtrGo dflt false ss

/-- Modelled from the spec: an outer block shape with a repeated block field
`rule` of element type `AttrWithDefault` (spec §4.6 step 2: "append (repeated,
duplicate block headers of the same name are additive, not overwriting)"; cf.
the repeated `rule` blocks of `discovery.relabel` in the converter output
examples) plus a non-repeated attribute `limit` so that interleavings can be
exercised.  The type implements no Defaulting Protocol, so decoding starts
from the zero value. -/
structure OutRep where
  rules : List AttrWithDefault
  limit : Int
deriving DecidableEq, Repr

/-- The zero value of `OutRep`: empty collection, zero attribute. -/
def OutRep_initial : OutRep := ⟨[], 0⟩

/-- Modelled from the spec: the VM's decoding loop for `OutRep` (spec §4.6
step 2).  A `rule { ... }` block decodes its body into a freshly defaulted
`AttrWithDefault` and is appended to the collection; the `limit` attribute is
non-repeated and overwrites once, a second assignment being a
`DuplicateFieldError`; any other statement is an `UnknownFieldError`. -/
def decodeRepGo (cur : OutRep) (limitSeen : Bool) :
    List Stmt → Except DecodeError OutRep
  | [] => .ok cur
  | .block n body :: rest =>
      if n = "rule" then
        match decodeInner body with
        | .error e => .error e
        | .ok i => decodeRepGo ⟨cur.rules ++ [i], cur.limit⟩ limitSeen rest
      else .error (.unknownField n)
  | .attr n val :: rest =>
      if n = "limit" then
        if limitSeen then .error (.duplicateField "limit")
        else decodeRepGo ⟨cur.rules, val⟩ true rest
      else .error (.unknownField n)

/-- Decode a statement list into an `OutRep`, starting from its zero value
(spec §4.6 step 1). -/
def decodeRep (ss : List Stmt) : Except DecodeError OutRep :=
  decodeRepGo OutRep_initial false ss

/-- The in-source-order decode of just the `rule` blocks of a statement list:
each `rule` block body is decoded into a freshly defaulted `AttrWithDefault`,
other statements contribute nothing. -/
def decodeRules : List Stmt → Except DecodeError (List AttrWithDefault)
  | [] => .ok []
  | .block n body :: rest =>
      if n = "rule" then
        match decodeInner body with
        | .error e => .error e
        | .ok i =>
            match decodeRules rest with
            | .error e => .error e
            | .ok l => .ok (i :: l)
      else decodeRules rest
  | .attr _ _ :: rest => decodeRules rest

/-- The number of `rule` block statements in a statement list. -/
def countRuleStmts : List Stmt → Nat
  | [] => 0
  | .block n _ :: rest => (if n = "rule" then 1 else 0) + countRuleStmts rest
  | .attr _ _ :: rest => countRuleStmts rest

/-- Modelled from the spec: the builder's walk over an `AttrWithDefault`
source value with explicit state passing (spec §4.5: "Side effect: none beyond
producing the fragment; the Builder never mutates the source value").  Each
step returns the fragment together with the source value as left behind by the
walk, the leaf being rebuilt from the field the walk read. -/
def encodeInnerWalk (i : AttrWithDefault) : List Stmt × AttrWithDefault :=
  (if i = AttrWithDefault.setToDefault then []
   else [Stmt.attr "number" i.number], ⟨i.number⟩)

/-- Modelled from the spec: the builder's walk over a struct-shaped outer
source value with explicit state passing; see `encodeInnerWalk`. -/
def encodeStrWalk (dflt v : OutStr) : List Stmt × OutStr :=
  let res := encodeInnerWalk v.inner
  (if v.inner = dflt.inner then [] else [Stmt.block "inner" res.1], ⟨res.2⟩)

/-- Modelled from the spec: the builder's walk over a pointer-shaped outer
source value with explicit state passing; see `encodeInnerWalk`.  An absent
(nil) field is not walked. -/
def encodePtrWalk (dflt v : OutPtr) : List Stmt × OutPtr :=
  match v.inner with
  | none => ([], ⟨none⟩)
  | some i =>
      let res := encodeInnerWalk i
      (if some i = dflt.inner then [] else [Stmt.block "inner" res.1], ⟨some res.2⟩)

/-- Shorthand for the rendered `inner { number = n }` statement. -/
def innerNumberBlock (n : Int) : List Stmt := [Stmt.block "inner" [Stmt.attr "number" n]]

/-- Shorthand for the rendered `inner { }` statement. -/
def innerEmptyBlock : List Stmt := [Stmt.block "inner" []]

end River

namespace Promtail

/-- Diagnostic severity levels of the converter's `diag` package
(`SeverityLevelInfo/Warn/Error/Critical`). -/
inductive Severity where
  | info
  | warn
  | err
  | critical
deriving DecidableEq, Repr

/-- One diagnostic: a severity paired with a message
(`diags.Add(severity, message)` in promtailconvert.go). -/
structure Diag where
  severity : Severity
  message : String
deriving DecidableEq, Repr

/-- The outcomes of the effectful collaborators that
`promtailconvert.Convert` (promtailconvert.go lines 43-87) calls, in call
order.  `Convert`'s own control flow is embedded below; the collaborators
(whose sources are outside this snapshot) are treated as opaque oracles:
`defaultsErr` is the error result of `lokicfgutil.Unmarshal` with
`Defaults(flagSet)` (line 51), `yamlErr` that of `yaml.UnmarshalStrict`
(line 60), `appendDiags` the diagnostics produced by `AppendAll` (line 72),
`writeErr` the error result of `f.WriteTo(&buf)` (line 75), `rendered` the
bytes the builder wrote into `buf`, and `prettyOut`/`prettyDiags` the results
of `common.PrettyPrint` (line 84). -/
structure ConvertEnv where
  defaultsErr : Option String
  yamlErr : Option String
  appendDiags : List Diag
  writeErr : Option String
  rendered : String
  prettyOut : String
  prettyDiags : List Diag
deriving DecidableEq, Repr

/-- The control flow of `promtailconvert.Convert` (promtailconvert.go lines
43-87): on a defaults error, add a critical diagnostic and return nil output;
on a YAML parse error, add a critical diagnostic and return nil; run
`AppendAll`, collecting its diagnostics; on a render (`WriteTo`) error, add a
critical diagnostic and return nil; if the rendered configuration is empty,
return nil with the diagnostics so far; otherwise pretty-print, append the
pretty-printer's diagnostics, and return the output. -/
def Convert (env : ConvertEnv) : Option String × List Diag :=
  match env.defaultsErr with
  | some e =>
      (none, [⟨.critical, "failed to set default Promtail config values: " ++ e⟩])
  | none =>
  match env.yamlErr with
  | some e =>
      (none, [⟨.critical, "failed to parse Promtail config: " ++ e⟩])
  | none =>
  let diags := env.appendDiags
  match env.writeErr with
  | some e =>
      (none, diags ++ [⟨.critical, "failed to render Flow config: " ++ e⟩])
  | none =>
  if env.rendered.length = 0 then (none, diags)
  else (some env.prettyOut, diags ++ env.prettyDiags)

end Promtail

namespace River

/-! The model reproduces every test case of `TestBlockNesting`
(blocks_nesting_test.go lines 105-115 and 128-484): each `example` below pins
one `testCase`'s expected `river` text (encode direction) and, where the test's
round-trip invariant holds, the decode direction as well. -/

example : encodeStr OutZeroDefInStrBlkOptWithDef_default ⟨⟨0⟩⟩ = [] := rfl
example : encodeStr OutZeroDefInStrBlkOptWithDef_default ⟨⟨321⟩⟩ = innerNumberBlock 321 := rfl
example : encodeStr OutZeroDefInStrBlkOptWithDef_default ⟨⟨123⟩⟩ = innerEmptyBlock := rfl

example : encodeStr OutMatchDefInStrBlkOptMatchDef_default ⟨⟨0⟩⟩ = innerNumberBlock 0 := rfl
example : encodeStr OutMatchDefInStrBlkOptMatchDef_default ⟨⟨321⟩⟩ = innerNumberBlock 321 := rfl
example : encodeStr OutMatchDefInStrBlkOptMatchDef_default ⟨⟨123⟩⟩ = [] := rfl

example : encodeStr OutNoDefInStrBlkOptWithDef_initial ⟨⟨0⟩⟩ = [] := rfl
example : encodeStr OutNoDefInStrBlkOptWithDef_initial ⟨⟨321⟩⟩ = innerNumberBlock 321 := rfl
example : encodeStr OutNoDefInStrBlkOptWithDef_initial ⟨⟨123⟩⟩ = innerEmptyBlock := rfl

example : encodeStr OutDiffDefInStrBlkOptDiffDef_default ⟨⟨0⟩⟩ = innerNumberBlock 0 := rfl
example : encodeStr OutDiffDefInStrBlkOptDiffDef_default ⟨⟨42⟩⟩ = innerNumberBlock 42 := rfl
example : encodeStr OutDiffDefInStrBlkOptDiffDef_default ⟨⟨123⟩⟩ = innerEmptyBlock := rfl
example : encodeStr OutDiffDefInStrBlkOptDiffDef_default ⟨⟨321⟩⟩ = [] := rfl

example : encodePtr OutZeroDefInPtrBlkOptWithDef_default ⟨none⟩ = [] := rfl
example : encodePtr OutZeroDefInPtrBlkOptWithDef_default ⟨some ⟨0⟩⟩ = [] := rfl
example : encodePtr OutZeroDefInPtrBlkOptWithDef_default ⟨some ⟨321⟩⟩ = innerNumberBlock 321 := rfl
example : encodePtr OutZeroDefInPtrBlkOptWithDef_default ⟨some ⟨123⟩⟩ = innerEmptyBlock := rfl

example : encodePtr OutMatchDefInPtrBlkOptMatchDef_default ⟨none⟩ = [] := rfl
example : encodePtr OutMatchDefInPtrBlkOptMatchDef_default ⟨some ⟨0⟩⟩ = innerNumberBlock 0 := rfl
example : encodePtr OutMatchDefInPtrBlkOptMatchDef_default ⟨some ⟨321⟩⟩ = innerNumberBlock 321 := rfl
example : encodePtr OutMatchDefInPtrBlkOptMatchDef_default ⟨some ⟨123⟩⟩ = [] := rfl

example : encodePtr OutNoDefInPtrBlkOptWithDef_initial ⟨none⟩ = [] := rfl
example : encodePtr OutNoDefInPtrBlkOptWithDef_initial ⟨some ⟨0⟩⟩ = innerNumberBlock 0 := rfl
example : encodePtr OutNoDefInPtrBlkOptWithDef_initial ⟨some ⟨321⟩⟩ = innerNumberBlock 321 := rfl
example : encodePtr OutNoDefInPtrBlkOptWithDef_initial ⟨some ⟨123⟩⟩ = innerEmptyBlock := rfl

example : encodePtr OutDiffDefInPtrBlkOptDiffDef_default ⟨none⟩ = [] := rfl
example : encodePtr OutDiffDefInPtrBlkOptDiffDef_default ⟨some ⟨0⟩⟩ = innerNumberBlock 0 := rfl
example : encodePtr OutDiffDefInPtrBlkOptDiffDef_default ⟨some ⟨42⟩⟩ = innerNumberBlock 42 := rfl
example : encodePtr OutDiffDefInPtrBlkOptDiffDef_default ⟨some ⟨123⟩⟩ = innerEmptyBlock := rfl
example : encodePtr OutDiffDefInPtrBlkOptDiffDef_default ⟨some ⟨321⟩⟩ = [] := rfl

/-! Decode direction of the round-trip invariant checked at
blocks_nesting_test.go lines 517-523, for every test case where the test does
not mark the invariant violated. -/

example : decodeStr OutZeroDefInStrBlkOptWithDef_default [] = .ok ⟨⟨0⟩⟩ := rfl
example : decodeStr OutZeroDefInStrBlkOptWithDef_default (innerNumberBlock 321) = .ok ⟨⟨321⟩⟩ := rfl
example : decodeStr OutZeroDefInStrBlkOptWithDef_default innerEmptyBlock = .ok ⟨⟨123⟩⟩ := rfl
example : decodeStr OutMatchDefInStrBlkOptMatchDef_default (innerNumberBlock 0) = .ok ⟨⟨0⟩⟩ := rfl
example : decodeStr OutMatchDefInStrBlkOptMatchDef_default [] = .ok ⟨⟨123⟩⟩ := rfl
example : decodeStr OutNoDefInStrBlkOptWithDef_initial [] = .ok ⟨⟨0⟩⟩ := rfl
example : decodeStr OutDiffDefInStrBlkOptDiffDef_default (innerNumberBlock 42) = .ok ⟨⟨42⟩⟩ := rfl
example : decodeStr OutDiffDefInStrBlkOptDiffDef_default innerEmptyBlock = .ok ⟨⟨123⟩⟩ := rfl
example : decodeStr OutDiffDefInStrBlkOptDiffDef_default [] = .ok ⟨⟨321⟩⟩ := rfl

example : decodePtr OutZeroDefInPtrBlkOptWithDef_default (innerNumberBlock 321) = .ok ⟨some ⟨321⟩⟩ := rfl
example : decodePtr OutZeroDefInPtrBlkOptWithDef_default innerEmptyBlock = .ok ⟨some ⟨123⟩⟩ := rfl
example : decodePtr OutMatchDefInPtrBlkOptMatchDef_default (innerNumberBlock 0) = .ok ⟨some ⟨0⟩⟩ := rfl
example : decodePtr OutNoDefInPtrBlkOptWithDef_initial [] = .ok ⟨none⟩ := rfl
example : decodePtr OutNoDefInPtrBlkOptWithDef_initial (innerNumberBlock 0) = .ok ⟨some ⟨0⟩⟩ := rfl
example : decodePtr OutNoDefInPtrBlkOptWithDef_initial innerEmptyBlock = .ok ⟨some ⟨123⟩⟩ := rfl
example : decodePtr OutDiffDefInPtrBlkOptDiffDef_default (innerNumberBlock 42) = .ok ⟨some ⟨42⟩⟩ := rfl
example : decodePtr OutDiffDefInPtrBlkOptDiffDef_default innerEmptyBlock = .ok ⟨some ⟨123⟩⟩ := rfl
example : decodePtr OutDiffDefInPtrBlkOptDiffDef_default [] = .ok ⟨some ⟨321⟩⟩ := rfl

end River

namespace River

/-- Inner-level round-trip: decoding the rendered body of an
`AttrWithDefault` value reproduces that value. -/
theorem decodeInner_encodeInner (i : AttrWithDefault) :
    decodeInner (encodeInner i) = .ok i := by
  obtain ⟨n⟩ := i
  by_cases h : (⟨n⟩ : AttrWithDefault) = AttrWithDefault.setToDefault
  · rw [h]
    rfl
  · simp [encodeInner, h, decodeInner, decodeInnerGo]

/-- Outer-level round-trip for the struct-shaped outer block: holds for every
value and every outer default. -/
theorem decodeStr_encodeStr (dflt v : OutStr) :
    decodeStr dflt (encodeStr dflt v) = .ok v := by
  obtain ⟨vi⟩ := v
  obtain ⟨di⟩ := dflt
  by_cases h : vi = di
  · subst h
    simp [encodeStr, decodeStr, decodeStrGo]
  · have h' : (⟨vi⟩ : OutStr).inner ≠ (⟨di⟩ : OutStr).inner := h
    simp [encodeStr, h', decodeStr, decodeStrGo, decodeInner_encodeInner]

/-- Outer-level round-trip for the pointer-shaped outer block: holds whenever
the held value is present, or the outer default leaves the field nil. -/
theorem decodePtr_encodePtr (dflt v : OutPtr)
    (h : v.inner ≠ none ∨ dflt.inner = none) :
    decodePtr dflt (encodePtr dflt v) = .ok v := by
  obtain ⟨vi⟩ := dflt
  obtain ⟨wi⟩ := v
  cases wi with
  | none =>
      rcases h with h | h
      · exact absurd rfl h
      · have h' : vi = none := h
        subst h'
        rfl
  | some i =>
      by_cases hd : some i = vi
      · subst hd
        simp [encodePtr, decodePtr, decodePtrGo]
      · have h' : (⟨some i⟩ : OutPtr).inner ≠ (⟨vi⟩ : OutPtr).inner := hd
        simp [encodePtr, h', decodePtr, decodePtrGo, decodeInner_encodeInner]

/-- Decoding a pointer-shaped outer block never clears the field: if the
running value holds a non-nil pointer, so does any successful result. -/
theorem decodePtrGo_inner_ne_none (ss : List Stmt) :
    ∀ (cur : OutPtr) (b : Bool) (w : OutPtr), decodePtrGo cur b ss = .ok w →
      cur.inner ≠ none → w.inner ≠ none := by
  induction ss with
  | nil =>
      intro cur b w h hc
      simp only [decodePtrGo] at h
      cases h
      exact hc
  | cons s rest ih =>
      intro cur b w h hc
      cases s with
      | attr n val => simp [decodePtrGo] at h
      | block n body =>
          by_cases hn : n = "inner"
          · subst hn
            cases b with
            | true => simp [decodePtrGo] at h
            | false =>
                rcases hdi : decodeInner body with e | i <;>
                  simp only [decodePtrGo, if_pos rfl, hdi] at h
                · cases h
                · exact ih _ _ _ h (by simp)
          · simp [decodePtrGo, hn] at h

end River

namespace River

/-- C1 counterexample: for `OutZeroDefInPtrBlkOptWithDef` (an outer block
whose own default sets the optional block pointer `inner` to a non-nil value)
and `v` with `inner = nil`, encode omits the field and decode restores the
outer default, so `decode(encode(v, T), T, scope) ≠ v` — and `v` is not within
the claimed exception, since its field is a block field and is not at its
default (blocks_nesting_test.go lines 298-309). -/
theorem c1_roundtrip_counterexample :
    decodePtr OutZeroDefInPtrBlkOptWithDef_default
        (encodePtr OutZeroDefInPtrBlkOptWithDef_default ⟨none⟩) =
      .ok ⟨some ⟨0⟩⟩ ∧
    (⟨some ⟨0⟩⟩ : OutPtr) ≠ (⟨none⟩ : OutPtr) := by
  exact ⟨rfl, by decide⟩

/-- C1 amended: decode(encode(v, T), T, scope) = v for every value of every
struct-shaped outer type, and for every value of every pointer-shaped outer
type whose field is present or whose outer default leaves the field nil; the
only failures are optional **block** pointer fields held at nil while the
enclosing default sets them non-nil (the §9 asymmetry). -/
theorem c1_roundtrip :
    (∀ dflt v : OutStr, decodeStr dflt (encodeStr dflt v) = .ok v) ∧
    (∀ dflt v : OutPtr, v.inner ≠ none ∨ dflt.inner = none →
      decodePtr dflt (encodePtr dflt v) = .ok v) :=
  ⟨decodeStr_encodeStr, decodePtr_encodePtr⟩

/-- Witness for `c1_roundtrip` at concrete inputs. -/
theorem c1_roundtrip_witness :
    decodePtr OutMatchDefInPtrBlkOptMatchDef_default
        (encodePtr OutMatchDefInPtrBlkOptMatchDef_default ⟨some ⟨7⟩⟩) =
      .ok ⟨some ⟨7⟩⟩ :=
  c1_roundtrip.2 OutMatchDefInPtrBlkOptMatchDef_default ⟨some ⟨7⟩⟩
    (Or.inl (by decide))

/-- C2 counterexample: `OutNoDefInStrBlkOptWithDef` implements no Defaulting
Protocol while its nested block field's type does; decoding an empty statement
list leaves the nested field at the zero value `number = 0`, not at the inner
type's own default `number = 123` (blocks_nesting_test.go lines 204-212: the
inner default "will not be applied because the inner block is a struct, so it
will be initialized to zero value"). -/
theorem c2_init_counterexample :
    decodeStr OutNoDefInStrBlkOptWithDef_initial [] = .ok ⟨⟨0⟩⟩ ∧
    (⟨⟨0⟩⟩ : OutStr) ≠ ⟨AttrWithDefault.setToDefault⟩ := by
  exact ⟨rfl, by decide⟩

/-- C2 amended: before any statement is processed the decode target is
initialized to the outer type's own applyDefault() result (its zero value when
the protocol is not implemented), and nothing more: decoding an empty
statement list yields exactly that starting value, with no recursive overlay
of nested block fields' own defaults — in particular `OutNoDefInStrBlkOptWithDef`
decodes the empty list to the zero value. -/
theorem c2_init_is_outer_default :
    (∀ dflt : OutStr, decodeStr dflt [] = .ok dflt) ∧
    (∀ dflt : OutPtr, decodePtr dflt [] = .ok dflt) ∧
    decodeStr OutNoDefInStrBlkOptWithDef_initial [] = .ok ⟨⟨0⟩⟩ :=
  ⟨fun _ => rfl, fun _ => rfl, rfl⟩

/-- C3: a field whose current value is deep-equal to its computed
(outer-composed) default never appears in encoder output — for optional block
fields of both shapes and for the inner attribute (whose computed default
inside a freshly defaulted inner block is the inner type's own default). -/
theorem c3_default_suppression :
    (∀ dflt v : OutStr, v.inner = dflt.inner → encodeStr dflt v = []) ∧
    (∀ dflt v : OutPtr, v.inner = dflt.inner → encodePtr dflt v = []) ∧
    (∀ i : AttrWithDefault, i = AttrWithDefault.setToDefault →
      encodeInner i = []) := by
  refine ⟨fun dflt v h => ?_, fun dflt v h => ?_, fun i h => ?_⟩
  · simp [encodeStr, h]
  · simp [encodePtr, h]
  · simp [encodeInner, h]

/-- Witness for `c3_default_suppression` at concrete inputs. -/
theorem c3_default_suppression_witness :
    encodeStr OutDiffDefInStrBlkOptDiffDef_default ⟨⟨321⟩⟩ = [] ∧
    encodePtr OutDiffDefInPtrBlkOptDiffDef_default ⟨some ⟨321⟩⟩ = [] ∧
    encodeInner ⟨123⟩ = [] :=
  ⟨c3_default_suppression.1 _ _ rfl, c3_default_suppression.2.1 _ _ rfl,
   c3_default_suppression.2.2 _ rfl⟩

/-- C4 counterexample: for `OutMatchDefInPtrBlkOptMatchDef` the held value
`&AttrWithDefault{Number: 123}` is present and deep-equal to the field type's
own default, yet the encoder omits the field entirely (empty output, not
`inner { }`) because the value also matches the outer-composed default
(blocks_nesting_test.go lines 378-384). -/
theorem c4_present_default_counterexample :
    encodePtr OutMatchDefInPtrBlkOptMatchDef_default
        ⟨some AttrWithDefault.setToDefault⟩ = [] ∧
    ([] : List Stmt) ≠ [Stmt.block "inner" []] :=
  ⟨rfl, fun h => List.noConfusion h⟩

/-- C4 amended: an optional block field held at the field type's own default
is rendered as an empty block body `inner { }` provided it differs from the
outer-composed default (if it equals the outer-composed default the field is
omitted entirely); an absent (nil) held value is always omitted. -/
theorem c4_present_default_empty_block :
    (∀ dflt v : OutPtr, v.inner = some AttrWithDefault.setToDefault →
      v.inner ≠ dflt.inner → encodePtr dflt v = [Stmt.block "inner" []]) ∧
    (∀ dflt v : OutStr, v.inner = AttrWithDefault.setToDefault →
      v.inner ≠ dflt.inner → encodeStr dflt v = [Stmt.block "inner" []]) ∧
    (∀ dflt v : OutPtr, v.inner = none → encodePtr dflt v = []) := by
  refine ⟨fun dflt v h hne => ?_, fun dflt v h hne => ?_, fun dflt v h => ?_⟩
  · simp [encodePtr, h, hne, h ▸ hne, encodeInner]
  · simp [encodeStr, h, hne, h ▸ hne, encodeInner]
  · by_cases hd : v.inner = dflt.inner
    · simp [encodePtr, hd]
    · simp [encodePtr, hd, h]

/-- Witness for `c4_present_default_empty_block` at concrete inputs. -/
theorem c4_present_default_empty_block_witness :
    encodePtr OutNoDefInPtrBlkOptWithDef_initial
        ⟨some AttrWithDefault.setToDefault⟩ = [Stmt.block "inner" []] ∧
    encodeStr OutNoDefInStrBlkOptWithDef_initial
        ⟨AttrWithDefault.setToDefault⟩ = [Stmt.block "inner" []] ∧
    encodePtr OutMatchDefInPtrBlkOptMatchDef_default ⟨none⟩ = [] :=
  ⟨c4_present_default_empty_block.1 _ _ rfl (by decide),
   c4_present_default_empty_block.2.1 _ _ rfl (by decide),
   c4_present_default_empty_block.2.2 _ _ rfl⟩

/-- C5: when the outer default holds the optional block pointer non-nil, no
statement list decodes to a nil field (decoding preserves non-nil-ness of the
running value and omission decodes to the outer default), so for `v` with the
field nil the round trip differs from `v`. -/
theorem c5_nil_not_encodable (dflt : OutPtr) (hd : dflt.inner ≠ none) :
    (∀ ss w, decodePtr dflt ss = .ok w → w.inner ≠ none) ∧
    decodePtr dflt [] = .ok dflt ∧
    decodePtr dflt (encodePtr dflt ⟨none⟩) ≠ .ok (⟨none⟩ : OutPtr) := by
  refine ⟨fun ss w h => decodePtrGo_inner_ne_none ss dflt false w h hd, rfl, ?_⟩
  intro h
  have hw : (⟨none⟩ : OutPtr).inner ≠ none :=
    decodePtrGo_inner_ne_none _ dflt false _ h hd
  exact hw rfl

/-- Witness for `c5_nil_not_encodable` at a concrete outer default. -/
theorem c5_nil_not_encodable_witness :
    decodePtr OutZeroDefInPtrBlkOptWithDef_default [] =
      .ok OutZeroDefInPtrBlkOptWithDef_default :=
  (c5_nil_not_encodable OutZeroDefInPtrBlkOptWithDef_default (by decide)).2.1

/-- C6: decoding `inner { number = 321 }` into a type whose default sets
`inner.Number = 123` yields `inner.Number = 321`, and decoding `inner { }`
into the same type yields `inner.Number = 123` (the empty block body applies
the inner type's own defaults). -/
theorem c6_decode_scenarios :
    decodeStr OutMatchDefInStrBlkOptMatchDef_default (innerNumberBlock 321) =
      .ok ⟨⟨321⟩⟩ ∧
    decodeStr OutMatchDefInStrBlkOptMatchDef_default innerEmptyBlock =
      .ok ⟨⟨123⟩⟩ :=
  ⟨rfl, rfl⟩

end River

namespace River

/-- C7: a block body consisting of attribute statements for the same
non-repeated field, containing at least two of them, fails decoding with a
`DuplicateFieldError` for that field — never last-write-wins. -/
theorem c7_duplicate_attribute (ss : List Stmt)
    (hall : ∀ s ∈ ss, ∃ n : Int, s = Stmt.attr "number" n)
    (hlen : 2 ≤ ss.length) :
    decodeInner ss = .error (DecodeError.duplicateField "number") := by
  cases ss with
  | nil => simp at hlen
  | cons s1 t =>
      cases t with
      | nil => simp at hlen
      | cons s2 rest =>
          obtain ⟨n1, h1⟩ := hall s1 (by simp)
          obtain ⟨n2, h2⟩ := hall s2 (by simp)
          subst h1
          subst h2
          rfl

/-- Witness for `c7_duplicate_attribute` at a concrete block body. -/
theorem c7_duplicate_attribute_witness :
    decodeInner [Stmt.attr "number" 1, Stmt.attr "number" 2] =
      .error (DecodeError.duplicateField "number") :=
  c7_duplicate_attribute _
    (by
      intro s hs
      simp at hs
      rcases hs with rfl | rfl
      · exact ⟨1, rfl⟩
      · exact ⟨2, rfl⟩)
    (by simp)

/-- The rule-collection of a successful `decodeRepGo` run extends the running
collection by the in-source-order decodes of the remaining `rule` blocks. -/
theorem decodeRepGo_rules (ss : List Stmt) :
    ∀ (cur : OutRep) (b : Bool) (v : OutRep), decodeRepGo cur b ss = .ok v →
      ∃ l, decodeRules ss = .ok l ∧ v.rules = cur.rules ++ l := by
  induction ss with
  | nil =>
      intro cur b v h
      simp only [decodeRepGo] at h
      cases h
      exact ⟨[], rfl, by simp⟩
  | cons s rest ih =>
      intro cur b v h
      cases s with
      | attr n val =>
          by_cases hn : n = "limit"
          · subst hn
            cases b with
            | true => simp [decodeRepGo] at h
            | false =>
                simp only [decodeRepGo, if_pos rfl] at h
                obtain ⟨l, hl, hr⟩ := ih _ _ _ h
                exact ⟨l, by simpa [decodeRules] using hl, hr⟩
          · simp [decodeRepGo, hn] at h
      | block n body =>
          by_cases hn : n = "rule"
          · subst hn
            rcases hdi : decodeInner body with e | i <;>
              simp only [decodeRepGo, if_pos rfl, hdi] at h
            · cases h
            · obtain ⟨l, hl, hr⟩ := ih _ _ _ h
              refine ⟨i :: l, ?_, ?_⟩
              · simp [decodeRules, hdi, hl]
              · simp [hr, List.append_assoc]
          · simp [decodeRepGo, hn] at h

/-- The in-source-order decode of the `rule` blocks yields one element per
`rule` statement. -/
theorem decodeRules_length (ss : List Stmt) :
    ∀ l, decodeRules ss = .ok l → l.length = countRuleStmts ss := by
  induction ss with
  | nil =>
      intro l hl
      simp only [decodeRules] at hl
      cases hl
      rfl
  | cons s rest ih =>
      intro l hl
      cases s with
      | attr n val =>
          simp only [decodeRules] at hl
          simpa [countRuleStmts] using ih _ hl
      | block n body =>
          by_cases hn : n = "rule"
          · subst hn
            rcases hdi : decodeInner body with e | i <;>
              simp only [decodeRules, if_pos rfl, hdi] at hl
            · cases hl
            · rcases hdr : decodeRules rest with e | l2 <;> rw [hdr] at hl
              · cases hl
              · cases hl
                have hlen := ih _ hdr
                simp [countRuleStmts]
                omega
          · simp only [decodeRules, if_neg hn] at hl
            simpa [countRuleStmts, hn] using ih _ hl

/-- C8: a successful decode of a statement list into the repeated-block type
yields exactly the in-source-order decodes of its `rule` blocks — one element
per `rule` statement, in source order, whatever other statements are
interleaved. -/
theorem c8_repeated_accumulation (ss : List Stmt) (v : OutRep)
    (h : decodeRep ss = .ok v) :
    decodeRules ss = .ok v.rules ∧ v.rules.length = countRuleStmts ss := by
  obtain ⟨l, hl, hr⟩ := decodeRepGo_rules ss OutRep_initial false v h
  have hrl : v.rules = l := by simpa [OutRep_initial] using hr
  rw [hrl]
  exact ⟨hl, decodeRules_length ss l hl⟩

/-- Witness for `c8_repeated_accumulation`: two `rule` blocks interleaved with
a `limit` attribute decode to a two-element collection in source order. -/
theorem c8_repeated_accumulation_witness :
    decodeRules
        [Stmt.block "rule" [Stmt.attr "number" 1], Stmt.attr "limit" 5,
         Stmt.block "rule" []] =
      .ok (⟨[⟨1⟩, ⟨123⟩], 5⟩ : OutRep).rules ∧
    (⟨[⟨1⟩, ⟨123⟩], 5⟩ : OutRep).rules.length =
      countRuleStmts
        [Stmt.block "rule" [Stmt.attr "number" 1], Stmt.attr "limit" 5,
         Stmt.block "rule" []] :=
  c8_repeated_accumulation _ _ rfl

/-- C9: the builder's walk over the source value returns the source value
unchanged alongside the fragment it produces — encoding has no effect on the
source value beyond producing the fragment. -/
theorem c9_encode_preserves_source :
    (∀ dflt v : OutStr, encodeStrWalk dflt v = (encodeStr dflt v, v)) ∧
    (∀ dflt v : OutPtr, encodePtrWalk dflt v = (encodePtr dflt v, v)) ∧
    (∀ i : AttrWithDefault, encodeInnerWalk i = (encodeInner i, i)) := by
  have hinner : ∀ i : AttrWithDefault, encodeInnerWalk i = (encodeInner i, i) := by
    intro i
    obtain ⟨n⟩ := i
    simp [encodeInnerWalk, encodeInner]
  refine ⟨fun dflt v => ?_, fun dflt v => ?_, hinner⟩
  · obtain ⟨vi⟩ := v
    simp [encodeStrWalk, encodeStr, hinner]
  · obtain ⟨vi⟩ := v
    cases vi with
    | none =>
        by_cases hd : (⟨none⟩ : OutPtr).inner = dflt.inner
        · simp [encodePtrWalk, encodePtr, hd]
        · simp [encodePtrWalk, encodePtr, hd]
    | some i =>
        by_cases hd : (⟨some i⟩ : OutPtr).inner = dflt.inner
        · simp [encodePtrWalk, encodePtr, hd, hinner]
        · simp [encodePtrWalk, encodePtr, hd, hinner]

end River

namespace Promtail

/-- C10: `Convert` returns nil output whenever any of its three
critical-diagnostic branches fires (defaults error, YAML parse error, render
error), together with a critical diagnostic in the result; it returns nil with
the accumulated diagnostics when the rendered configuration is empty; and when
it does return rendered output, the diagnostics are exactly those of its
collaborators — `Convert` itself adds no (critical) diagnostic on that path. -/
theorem c10_convert_nil_on_critical :
    (∀ env : ConvertEnv,
      env.defaultsErr ≠ none ∨ env.yamlErr ≠ none ∨ env.writeErr ≠ none →
      (Convert env).1 = none ∧
        ∃ d ∈ (Convert env).2, d.severity = Severity.critical) ∧
    (∀ env : ConvertEnv, env.defaultsErr = none → env.yamlErr = none →
      env.writeErr = none → env.rendered.length = 0 →
      Convert env = (none, env.appendDiags)) ∧
    (∀ env : ConvertEnv, (Convert env).1 ≠ none →
      (Convert env).2 = env.appendDiags ++ env.prettyDiags) := by
  refine ⟨fun env h => ?_, fun env h1 h2 h3 h4 => ?_, fun env h => ?_⟩
  · rcases he : env.defaultsErr with _ | e
    · rcases hy : env.yamlErr with _ | e
      · rcases hw : env.writeErr with _ | e
        · rcases h with h | h | h <;> simp_all
        · refine ⟨?_, ⟨.critical, "failed to render Flow config: " ++ e⟩, ?_, rfl⟩ <;>
            simp [Convert, he, hy, hw]
      · refine ⟨?_, ⟨.critical, "failed to parse Promtail config: " ++ e⟩, ?_, rfl⟩ <;>
          simp [Convert, he, hy]
    · refine ⟨?_, ⟨.critical, "failed to set default Promtail config values: " ++ e⟩,
        ?_, rfl⟩ <;> simp [Convert, he]
  · simp [Convert, h1, h2, h3, h4]
  · rcases he : env.defaultsErr with _ | e
    · rcases hy : env.yamlErr with _ | e
      · rcases hw : env.writeErr with _ | e
        · by_cases hr : env.rendered.length = 0
          · simp [Convert, he, hy, hw, hr] at h
          · simp [Convert, he, hy, hw, hr]
        · simp [Convert, he, hy, hw] at h
      · simp [Convert, he, hy] at h
    · simp [Convert, he] at h

/-- Witness for `c10_convert_nil_on_critical` at concrete environments. -/
theorem c10_convert_nil_on_critical_witness :
    (Convert ⟨some "boom", none, [], none, "", "", []⟩).1 = none ∧
    Convert ⟨none, none, [⟨Severity.warn, "w"⟩], none, "", "", []⟩ =
      (none, [⟨Severity.warn, "w"⟩]) ∧
    (Convert ⟨none, none, [⟨Severity.warn, "w"⟩], none, "x", "x", []⟩).2 =
      [⟨Severity.warn, "w"⟩] ++ [] :=
  ⟨(c10_convert_nil_on_critical.1 ⟨some "boom", none, [], none, "", "", []⟩
      (Or.inl (by decide))).1,
   c10_convert_nil_on_critical.2.1 _ rfl rfl rfl rfl,
   c10_convert_nil_on_critical.2.2 ⟨none, none, [⟨Severity.warn, "w"⟩], none, "x", "x", []⟩
     (by decide)⟩

end Promtail
